import Mathlib

/-!
Verification of the agent validation and lifecycle supervisor of
`danmane/abalone` (`go/cmd/abalone_httpd/main.go`).

The Go code is shallowly embedded: the Docker client, the HTTP client and
the wall clock are abstracted as an explicit environment record, and each
relevant Go function is transcribed as an executable Lean function over
that environment.  Durations are natural numbers counting nanoseconds
(Go's `time.Duration` unit).  Errors are strings, as in Go, built with the
same `fmt.Errorf` formats as the source (the `%+v` renderings of port
tables are produced by a concrete serializer, `portsRepr`).
-/

namespace Abalone

/-- One nanosecond unit; `time.Second` in Go is 1e9 nanoseconds. -/
def timeSecond : Nat := 1000000000

/-- Docker `PortBinding`: a host-side mapping of a published container port
(`go-dockerclient`'s `PortBinding` struct, the fields the code reads). -/
structure PortBinding where
  HostIP : String
  HostPort : String
deriving Repr, DecidableEq

/-- A container's published-port table, `info.NetworkSettings.Ports`:
a finite map from port strings such as `3423/tcp` to lists of host
bindings, embedded as an association list. -/
def Ports : Type := List (String × List PortBinding)

instance : DecidableEq Ports := by
  unfold Ports
  infer_instance

/-- Map lookup on the port table, the two-valued `mappings, ok := ...Ports[p]`
access of Go. -/
def portsLookup (ps : Ports) (key : String) : Option (List PortBinding) :=
  match ps with
  | [] => none
  | (k, v) :: rest => if k = key then some v else portsLookup rest key

/-- Concrete serialization standing in for Go's `%+v` rendering of a port
table inside error messages (the exact text of `%+v` is irrelevant to every
claim; what matters is which message is produced). -/
def portsRepr (ps : Ports) : String :=
  String.intercalate ";" (ps.map (fun kv =>
    kv.1 ++ "->" ++ String.intercalate "," (kv.2.map (fun b => b.HostIP ++ ":" ++ b.HostPort))))

/-- The `AgentInfo` struct decoded from the probe response body. -/
structure AgentInfo where
  Owner : String
  Taunts : List String
deriving Repr, DecidableEq

/-- Result of one `http.Get` in the probe closure.  A network-level failure
carries the Go error message; a received response carries the outcome of
`json.NewDecoder(resp.Body).Decode(&agentInfo)` on its body, which either
yields an `AgentInfo` or fails with a decode error message. -/
inductive HTTPGetResult where
  | netError (msg : String)
  | response (decoded : Except String AgentInfo)
deriving Repr

/-- Lifecycle calls `ValidateImage` issues against the Docker client, in
order; recorded so the theorems can count `StopContainer` invocations. -/
inductive TraceEvent where
  | create (image : String)
  | start (id : String)
  | inspect (id : String)
  | stop (id : String)
deriving Repr, DecidableEq

/-- Counts the `StopContainer` calls in a trace. -/
def stopCount (t : List TraceEvent) : Nat :=
  t.countP (fun e => match e with | .stop _ => true | _ => false)

/-- The environment a validation call runs in: the Docker daemon's replies
to each client call, the HTTP replies to each probe attempt (indexed by
attempt number and carrying the requested URL), and the elapsed wall-clock
time (ns since `Reset`) observed by the backoff policy after each attempt.
`createContainer` returns the new container ID or an error;
`startContainer` and `stopContainer` return `some msg` on failure, `none`
on success, like Go's error-only returns. -/
structure DockerEnv where
  createContainer : String → Except String String
  startContainer : String → Option String
  inspectContainer : String → Except String Ports
  stopContainer : String → Option String
  httpGet : String → Nat → HTTPGetResult
  clock : Nat → Nat

/-- The `backoff.ExponentialBackOff` configuration fields the code sets or
that govern the retry loop (durations in nanoseconds). -/
structure ExponentialBackOff where
  InitialInterval : Nat
  MaxInterval : Nat
  MaxElapsedTime : Nat
deriving Repr, DecidableEq

/-- `backoff.NewExponentialBackOff()` defaults from the cenkalti/backoff
library: 500ms initial interval, 60s max interval, 15min max elapsed. -/
def newExponentialBackOff : ExponentialBackOff :=
  { InitialInterval := 500000000
    MaxInterval := 60 * timeSecond
    MaxElapsedTime := 15 * 60 * timeSecond }

/-- The configuration built in `ValidateImage` (main.go lines 288–291):
`InitialInterval = time.Second`, `MaxInterval = 10` (note: the literal 10,
i.e. 10 *nanoseconds*, as written in the source), and
`MaxElapsedTime = 10 * time.Second`. -/
def backoffConfig : ExponentialBackOff :=
  { newExponentialBackOff with
      InitialInterval := timeSecond
      MaxInterval := 10
      MaxElapsedTime := 10 * timeSecond }

/-- Result of `backoff.Retry`: success or the last error, together with the
number of operation attempts performed; `fuelOut` marks runs longer than
the supplied fuel (the Go loop is unbounded; fuel only truncates the
embedding, it adds no behaviour). -/
inductive RetryResult where
  | success (attempts : Nat)
  | failure (attempts : Nat) (err : String)
  | fuelOut
deriving Repr, DecidableEq

/-- `backoff.Retry(op, b)` from cenkalti/backoff: run `op`; on success stop;
on error ask `NextBackOff`, which returns `Stop` exactly when the elapsed
time since `Reset` exceeds `MaxElapsedTime`, in which case the last error
is returned; otherwise sleep and retry.  `clock i` is the elapsed time the
policy observes after attempt `i`; the slept interval only advances that
clock, so it is absorbed into `clock`. -/
def backoffRetry (op : Nat → Option String) (clock : Nat → Nat)
    (maxElapsedTime : Nat) : Nat → Nat → RetryResult
  | 0, _ => .fuelOut
  | fuel + 1, i =>
    match op i with
    | none => .success (i + 1)
    | some err =>
      if clock i > maxElapsedTime then .failure (i + 1) err
      else backoffRetry op clock maxElapsedTime fuel (i + 1)

/-- The retry closure of `ValidateImage` (main.go lines 292–308): `http.Get`
on the ping URL; a network error is returned (and hence retried); on a
response, decode the body into `AgentInfo` and return the decode error if
any; a decoded payload (whatever its `Owner`) yields success. -/
def probeOp (get : Nat → HTTPGetResult) (i : Nat) : Option String :=
  match get i with
  | .netError msg => some msg
  | .response (.error msg) => some msg
  | .response (.ok _info) => none

/-- The ping URL built by the closure: `http://ip:port/ping`. -/
def pingURL (ip port : String) : String :=
  "http://" ++ ip ++ ":" ++ port ++ "/ping"

/-- `AgentSupervisor.ValidateImage` (main.go lines 247–317), transcribed
branch by branch.  Returns the Go function's error (`none` = nil) paired
with the trace of Docker lifecycle calls it made.  `fuel` bounds the retry
loop only.  Note the transcription preserves the source's quirks: the
result of `backoff.Retry` is assigned to `err` and never read (the
`// TODO check error in case ping didn't work` line), and the early error
returns after container creation do not stop the container. -/
def ValidateImage (env : DockerEnv) (fuel : Nat) (image : String) :
    Option String × List TraceEvent :=
  match env.createContainer image with
  | .error e =>
    (some ("error creating container:%!(EXTRA string=" ++ e ++ ")"),
     [.create image])
  | .ok cid =>
    match env.startContainer cid with
    | some e =>
      (some ("error starting container: " ++ e),
       [.create image, .start cid])
    | none =>
      match env.inspectContainer cid with
      | .error e =>
        (some ("error inspecting container: " ++ e),
         [.create image, .start cid, .inspect cid])
      | .ok ports =>
        let tr := [TraceEvent.create image, .start cid, .inspect cid]
        match portsLookup ports "3423/tcp" with
        | none =>
          (some ("container must expose port 3423/tcp. Found: " ++ portsRepr ports), tr)
        | some mappings =>
          match mappings with
          | [m] =>
            let _err := backoffRetry
              (probeOp (env.httpGet (pingURL m.HostIP m.HostPort)))
              env.clock backoffConfig.MaxElapsedTime fuel 0
            match env.stopContainer cid with
            | some e => (some e, tr ++ [.stop cid])
            | none => (none, tr ++ [.stop cid])
          | _ =>
            (some ("error. expected one port mapping. found: " ++ portsRepr ports), tr)

/-- The endpoint-resolution step of `ValidateImage` in isolation (main.go
lines 275–286): look up `3423/tcp` in the published-port table; missing key
is the port-not-exposed error; any mapping count other than one is the
ambiguous/malformed-mapping error; exactly one mapping yields its
`HostIP`/`HostPort`. -/
def resolveEndpoint (ports : Ports) : Except String (String × String) :=
  match portsLookup ports "3423/tcp" with
  | none =>
    .error ("container must expose port 3423/tcp. Found: " ++ portsRepr ports)
  | some mappings =>
    match mappings with
    | [m] => .ok (m.HostIP, m.HostPort)
    | _ => .error ("error. expected one port mapping. found: " ++ portsRepr ports)

/-- An HTTP response as the handlers produce it: the status code (200 when
the Go handler never calls `WriteHeader`) and the written body. -/
structure HTTPResponse where
  status : Nat
  body : String
deriving Repr, DecidableEq

/-- `ValidateAgentHandler` (main.go lines 175–193): missing `image` form
value yields 400; otherwise `ValidateImage` is called and both its failure
and its success are written to the body of a 200 response (the handler
never calls `WriteHeader` on those paths, so Go sends 200). -/
def ValidateAgentHandler (validate : String → Option String) (imageParam : String) :
    HTTPResponse :=
  if imageParam = "" then
    { status := 400, body := "`image` parameter is required\n" }
  else
    match validate imageParam with
    | some e =>
      { status := 200, body := "image " ++ imageParam ++ " is not valid. error: " ++ e }
    | none =>
      { status := 200, body := "image " ++ imageParam ++ " is valid" }

/-- Image metadata as `InspectImage` returns it, restricted to the field
the handler reads (`image.Config.ExposedPorts`, a set of port strings). -/
structure ImageInfo where
  ExposedPorts : List String
deriving Repr, DecidableEq

/-- An incoming HTTP request, restricted to the data the handlers could
read from it (the `image` form value and the path). -/
structure Request where
  imageParam : String
  path : String
deriving Repr, DecidableEq

/-- Concrete serializer standing in for `json.NewEncoder(w).Encode` of the
exposed-ports table (its exact text is irrelevant to the claims). -/
def encodeExposedPorts (ps : List String) : String :=
  "\x7b" ++ String.intercalate "," ps ++ "\x7d"

/-- `ShowAgentInfoHandler` (main.go lines 201–210): inspect the hard-coded
image `jbenet/go-ipfs` — the request is never consulted — and encode its
exposed-ports table; an inspection failure yields a bare 500. -/
def ShowAgentInfoHandler (inspectImage : String → Except String ImageInfo)
    (_r : Request) : HTTPResponse :=
  match inspectImage "jbenet/go-ipfs" with
  | .error _ => { status := 500, body := "" }
  | .ok img => { status := 200, body := encodeExposedPorts img.ExposedPorts }

/-! Concrete environments used to evaluate `ValidateImage` on the branches
the claims single out. -/

/-- A single well-formed host binding for the service port. -/
def okBinding : PortBinding := { HostIP := "0.0.0.0", HostPort := "49001" }

/-- A port table with exactly one mapping for `3423/tcp`. -/
def okPorts : Ports := [("3423/tcp", [okBinding])]

/-- A port table with no mapping for `3423/tcp` at all. -/
def noServicePorts : Ports := [("80/tcp", [])]

/-- A port table with two host mappings for `3423/tcp`. -/
def ambiguousPorts : Ports :=
  [("3423/tcp", [okBinding, { HostIP := "0.0.0.0", HostPort := "49002" }])]

/-- Environment in which creation succeeds but starting the container
fails. -/
def envStartFail : DockerEnv :=
  { createContainer := fun _ => .ok "cid1"
    startContainer := fun _ => some "boom"
    inspectContainer := fun _ => .error "unused"
    stopContainer := fun _ => none
    httpGet := fun _ _ => .netError "unused"
    clock := fun _ => 0 }

/-- Environment in which the container starts but publishes no mapping for
the service port (the `bad-port` scenario). -/
def envNoPort : DockerEnv :=
  { createContainer := fun _ => .ok "cid2"
    startContainer := fun _ => none
    inspectContainer := fun _ => .ok noServicePorts
    stopContainer := fun _ => none
    httpGet := fun _ _ => .netError "unused"
    clock := fun _ => 0 }

/-- Environment in which the container runs correctly but every probe
attempt fails at the network level and the elapsed clock passes the 10s
bound right after the first attempt (the `slow-agent` scenario). -/
def envSlow : DockerEnv :=
  { createContainer := fun _ => .ok "cid3"
    startContainer := fun _ => none
    inspectContainer := fun _ => .ok okPorts
    stopContainer := fun _ => none
    httpGet := fun _ _ => .netError "connection refused"
    clock := fun i => (i + 1) * 11 * timeSecond }

/-- Environment in which the probe succeeds on the first attempt but
stopping the container afterwards fails. -/
def envStopFail : DockerEnv :=
  { createContainer := fun _ => .ok "cid4"
    startContainer := fun _ => none
    inspectContainer := fun _ => .ok okPorts
    stopContainer := fun _ => some "cannot stop container: no such container"
    httpGet := fun _ _ => .response (.ok { Owner := "btc", Taunts := ["gg"] })
    clock := fun _ => 0 }

/-- Environment in which container creation itself fails. -/
def envCreateFail : DockerEnv :=
  { createContainer := fun _ => .error "no such image"
    startContainer := fun _ => none
    inspectContainer := fun _ => .ok okPorts
    stopContainer := fun _ => none
    httpGet := fun _ _ => .netError "unused"
    clock := fun _ => 0 }

/-- Probe replies for the `garbage-agent` scenario: the first response body
fails to decode, the second one decodes. -/
def garbageThenOk : Nat → HTTPGetResult := fun i =>
  if i = 0 then .response (.error "invalid character g looking for beginning of value")
  else .response (.ok { Owner := "x", Taunts := [] })

/-- C1: refuted on the code as written.  In `envStartFail` a container
handle is created (`CreateContainer` returns `cid1`) and the subsequent
start fails, yet `ValidateImage` returns the start error without ever
invoking `StopContainer`: the release count on this branch is 0, not 1.
The created container leaks, contrary to the claimed release-on-every-
branch invariant. -/
theorem C1_start_failure_skips_stop :
    envStartFail.createContainer "img" = .ok "cid1" ∧
    ValidateImage envStartFail 5 "img" =
      (some "error starting container: boom", [.create "img", .start "cid1"]) ∧
    stopCount (ValidateImage envStartFail 5 "img").2 = 0 :=
  ⟨rfl, rfl, rfl⟩

/-- C2 counterexample: with the `garbage-agent` replies (first response body
fails to decode), the retry loop does NOT stop after the malformed
response: it performs a second attempt and returns success after 2
attempts, refuting "performs no further retry attempts". -/
theorem C2_counterexample_decode_error_is_retried :
    probeOp garbageThenOk 0 =
      some "invalid character g looking for beginning of value" ∧
    backoffRetry (probeOp garbageThenOk) (fun _ => 0)
        backoffConfig.MaxElapsedTime 5 0 = .success 2 :=
  ⟨rfl, rfl⟩

/-- C2 amended: an attempt whose HTTP request succeeds but whose body fails
to decode is treated exactly like a network-level failure: as long as the
elapsed time is within the bound, the loop proceeds to the next attempt
(the closure returns the decode error and `backoff.Retry` retries every
non-nil error). -/
theorem C2_amended_decode_error_retried_within_bound
    (get : Nat → HTTPGetResult) (clock : Nat → Nat) (fuel i : Nat) (msg : String)
    (hget : get i = .response (.error msg))
    (hclock : clock i ≤ backoffConfig.MaxElapsedTime) :
    backoffRetry (probeOp get) clock backoffConfig.MaxElapsedTime (fuel + 1) i =
      backoffRetry (probeOp get) clock backoffConfig.MaxElapsedTime fuel (i + 1) := by
  have h : ¬ clock i > backoffConfig.MaxElapsedTime := Nat.not_lt.mpr hclock
  simp only [backoffRetry, probeOp, hget, if_neg h]

/-- C2 amended, witness: concrete instantiation at the `garbage-agent`
replies, attempt 0, with a zero clock. -/
theorem C2_amended_witness :
    backoffRetry (probeOp garbageThenOk) (fun _ => 0)
        backoffConfig.MaxElapsedTime 5 0 =
      backoffRetry (probeOp garbageThenOk) (fun _ => 0)
        backoffConfig.MaxElapsedTime 4 1 :=
  C2_amended_decode_error_retried_within_bound garbageThenOk (fun _ => 0) 4 0
    "invalid character g looking for beginning of value" rfl (by decide)

/-- C3: refuted on the code as written.  In `envSlow` every probe attempt
fails at the network level and the elapsed clock exceeds the 10-second
bound, so `backoff.Retry` returns the timeout-exhausted error — but
`ValidateImage` assigns that error to `err` and never reads it (the
`// TODO check error in case ping didn't work` line), stops the container
and returns nil: the caller sees success, not a timeout error. -/
theorem C3_probe_timeout_reported_as_success :
    backoffRetry (probeOp (envSlow.httpGet (pingURL "0.0.0.0" "49001")))
        envSlow.clock backoffConfig.MaxElapsedTime 5 0 =
      .failure 1 "connection refused" ∧
    ValidateImage envSlow 5 "slow-agent" =
      (none, [.create "slow-agent", .start "cid3", .inspect "cid3", .stop "cid3"]) :=
  ⟨rfl, rfl⟩

/-- C4: partially refuted on the code as written.  For any probe behaviour
`get`, a started container without a `3423/tcp` mapping makes
`ValidateImage` return the port-not-exposed error and the result is
independent of `get` (no probing occurs) — but `StopContainer` is invoked
0 times, not exactly once: the container leaks on this branch. -/
theorem C4_missing_port_error_but_no_stop :
    ∀ get : String → Nat → HTTPGetResult,
      ValidateImage { envNoPort with httpGet := get } 5 "bad-port" =
        (some ("container must expose port 3423/tcp. Found: " ++ portsRepr noServicePorts),
         [.create "bad-port", .start "cid2", .inspect "cid2"]) ∧
      stopCount (ValidateImage { envNoPort with httpGet := get } 5 "bad-port").2 = 0 :=
  fun _ => ⟨rfl, rfl⟩

/-- C5: refuted on the code as written.  In `envStopFail` the probe
succeeds on the first attempt (`backoff.Retry` returns success), but
`StopContainer` fails and `ValidateImage` returns the stop error: the
teardown failure replaces the already-decided success verdict instead of
being a secondary signal. -/
theorem C5_stop_error_overrides_probe_success :
    backoffRetry (probeOp (envStopFail.httpGet (pingURL "0.0.0.0" "49001")))
        envStopFail.clock backoffConfig.MaxElapsedTime 5 0 = .success 1 ∧
    ValidateImage envStopFail 5 "ok-agent" =
      (some "cannot stop container: no such container",
       [.create "ok-agent", .start "cid4", .inspect "cid4", .stop "cid4"]) :=
  ⟨rfl, rfl⟩

/-- C6: refuted on the code as written.  The configured initial interval is
1 second and the maximum elapsed time is 10 seconds as claimed, but
`MaxInterval` is assigned the bare literal `10`, i.e. 10 *nanoseconds* of
`time.Duration`, not the claimed 10 seconds. -/
theorem C6_backoff_config_values :
    backoffConfig.InitialInterval = timeSecond ∧
    backoffConfig.MaxElapsedTime = 10 * timeSecond ∧
    backoffConfig.MaxInterval = 10 ∧
    backoffConfig.MaxInterval ≠ 10 * timeSecond := by
  decide

/-- C7: endpoint resolution over any published-port table whose `3423/tcp`
entry exists: with exactly one host mapping it returns that mapping's
host IP and host port; with two or more mappings it returns the
ambiguous-mapping error and, in particular, picks no mapping. -/
theorem C7_resolveEndpoint_unique_or_ambiguous (ports : Ports)
    (mappings : List PortBinding)
    (hlook : portsLookup ports "3423/tcp" = some mappings) :
    (∀ m : PortBinding, mappings = [m] →
      resolveEndpoint ports = .ok (m.HostIP, m.HostPort)) ∧
    (2 ≤ mappings.length →
      resolveEndpoint ports =
        .error ("error. expected one port mapping. found: " ++ portsRepr ports)) := by
  constructor
  · intro m hm
    subst hm
    unfold resolveEndpoint
    rw [hlook]
  · intro hlen
    unfold resolveEndpoint
    rw [hlook]
    rcases mappings with _ | ⟨a, _ | ⟨b, rest⟩⟩
    · simp at hlen
    · simp at hlen
    · rfl

/-- C7 witness: on the concrete two-mapping table, resolution returns the
ambiguous-mapping error. -/
theorem C7_resolveEndpoint_witness :
    resolveEndpoint ambiguousPorts =
      .error ("error. expected one port mapping. found: " ++ portsRepr ambiguousPorts) :=
  (C7_resolveEndpoint_unique_or_ambiguous ambiguousPorts
    [okBinding, { HostIP := "0.0.0.0", HostPort := "49002" }] rfl).2 (by decide)

/-- C8: for every environment and image whose creation fails,
`ValidateImage` returns the creation error and the trace contains no
`StopContainer` call at all. -/
theorem C8_creation_failure_no_stop (env : DockerEnv) (fuel : Nat)
    (image e : String) (hcreate : env.createContainer image = .error e) :
    ValidateImage env fuel image =
      (some ("error creating container:%!(EXTRA string=" ++ e ++ ")"),
       [.create image]) ∧
    stopCount (ValidateImage env fuel image).2 = 0 := by
  unfold ValidateImage
  rw [hcreate]
  exact ⟨rfl, rfl⟩

/-- C8 witness: concrete environment whose creation fails with
`no such image`. -/
theorem C8_creation_failure_witness :
    ValidateImage envCreateFail 5 "missing-image" =
      (some ("error creating container:%!(EXTRA string=" ++ "no such image" ++ ")"),
       [.create "missing-image"]) ∧
    stopCount (ValidateImage envCreateFail 5 "missing-image").2 = 0 :=
  C8_creation_failure_no_stop envCreateFail 5 "missing-image" "no such image" rfl

/-- C9: for every validation outcome function and every non-empty `image`
form value, the validate handler responds with status 200 — failures are
reported only in the body text. -/
theorem C9_validate_handler_always_200 (validate : String → Option String)
    (imageParam : String) (h : imageParam ≠ "") :
    (ValidateAgentHandler validate imageParam).status = 200 := by
  unfold ValidateAgentHandler
  rw [if_neg h]
  cases validate imageParam <;> rfl

/-- C9 witness: a failing validation of `garbage-agent` still yields
status 200. -/
theorem C9_validate_handler_witness :
    (ValidateAgentHandler (fun _ => some "ping failed") "garbage-agent").status = 200 :=
  C9_validate_handler_always_200 (fun _ => some "ping failed") "garbage-agent"
    (by decide)

/-- C10: the agent-info handler's response is identical for any two
requests (the request is never consulted), and whenever inspecting the
hard-coded image `jbenet/go-ipfs` succeeds, the response body is that
image's encoded exposed-ports table. -/
theorem C10_agent_info_ignores_request
    (inspectImage : String → Except String ImageInfo) (r1 r2 : Request) :
    ShowAgentInfoHandler inspectImage r1 = ShowAgentInfoHandler inspectImage r2 ∧
    (∀ img : ImageInfo, inspectImage "jbenet/go-ipfs" = .ok img →
      ShowAgentInfoHandler inspectImage r1 =
        { status := 200, body := encodeExposedPorts img.ExposedPorts }) := by
  constructor
  · rfl
  · intro img h
    unfold ShowAgentInfoHandler
    rw [h]

/-- C10 witness: an inspection oracle that tags its argument shows the
handler inspected `jbenet/go-ipfs`, not the caller-supplied image. -/
theorem C10_agent_info_witness :
    ShowAgentInfoHandler (fun s => .ok { ExposedPorts := [s ++ ":4001/tcp"] })
        { imageParam := "caller-agent", path := "/api/v0/image" } =
      { status := 200,
        body := encodeExposedPorts ["jbenet/go-ipfs" ++ ":4001/tcp"] } :=
  (C10_agent_info_ignores_request (fun s => .ok { ExposedPorts := [s ++ ":4001/tcp"] })
      { imageParam := "caller-agent", path := "/api/v0/image" }
      { imageParam := "other", path := "/" }).2
    { ExposedPorts := ["jbenet/go-ipfs" ++ ":4001/tcp"] } rfl

end Abalone
